import Mathlib

/-!
Verification of mcp-desktop-pro (server.js).

Shallow embedding of the coordinate-transformation, capture and batch-action
logic of `src/server.js`.  JavaScript numbers are modelled as `ℚ` (the values
occurring in this code are exact in double precision for all realistic sizes),
and `Math.round` is modelled by the Mathlib `round` function, which agrees
with the JavaScript round-half-toward-+∞ behaviour on every rational.

External capabilities (the `screenshot-desktop` grab, `sharp` image pipeline,
`robotjs` screen query, `active-win` window list, and the platform focus
helpers) are modelled as oracle fields of an `Env` record: the window list,
the logical screen size, the pixel size of the raw screenshot, the measured
pixel size and byte size of the encoded output, the current clock, and
whether the platform-specific focus call succeeds.  One `sharp` fact is
load-bearing and modelled explicitly: `sharp(img).extract(...).metadata()`
returns the header dimensions of the *input* image, not the post-crop ones —
`server.js` itself documents this ("Use the extraction dimensions, not
metadata (which shows original image size)", line 1297).
-/

namespace McpDesktopPro

/-- A `{width, height}` pair (JS numbers). -/
structure Size where
  width : ℚ
  height : ℚ
deriving DecidableEq, Repr

/-- Window bounds `{x, y, width, height}` in logical screen coordinates. -/
structure Bounds where
  x : ℚ
  y : ℚ
  width : ℚ
  height : ℚ
deriving DecidableEq, Repr

/-- A record returned by the `getOpenWindows()` call of `active-win`; only the fields `server.js`
reads (`id`, `title`, `bounds`) are modelled. -/
structure WindowRecord where
  id : Nat
  title : String
  bounds : Bounds
deriving DecidableEq, Repr

/-- An entry of `global.windowCaptureMetadata` (server.js lines 507-512,
537-542, 1383-1390).  The fields `originalPhysicalSize` and `reportedAiSize`
written by `window_capture` are never read anywhere and are omitted. -/
structure CaptureMetadata where
  windowId : Nat
  originalLogicalSize : Size
  aiImageSize : Size
  timestamp : ℚ
deriving DecidableEq, Repr

/-- Model of `global.lastScreenCapture` (server.js lines 428-434); the unread
`reportedAiSize` duplicate field is omitted. -/
structure ScreenCaptureMetadata where
  originalSize : Size
  logicalScreenSize : Size
  aiImageSize : Size
  timestamp : ℚ
deriving DecidableEq, Repr

/-- The metadata cache `global.windowCaptureMetadata`, keyed by window id. -/
def MetaStore : Type := Nat → Option CaptureMetadata

/-- Oracle for everything outside the repository: the open-window list, the
logical screen size (`robot.getScreenSize()`), the pixel size of the raw
screenshot (`sharp(img).metadata()`), the pixel size measured on the encoded WebP
output (`finalMeta`), the encoded byte length divided by 1024, the clock
(`Date.now()`), and whether the platform focus helper succeeds. -/
structure Env where
  windows : List WindowRecord
  screenSize : Size
  shotSize : Size
  finalSize : Size
  sizeKB : ℚ
  now : ℚ
  focusOk : Bool

/-- JavaScript truthiness test `!windowId` for an optional numeric id:
`undefined` and `0` are falsy. -/
def jsFalsyId : Option Nat → Bool
  | none => true
  | some n => n == 0

/-- JavaScript truthiness test `!s` for an optional string: `undefined` and
the empty string are falsy. -/
def jsFalsyStr : Option String → Bool
  | none => true
  | some s => s == ""

/-- Rendering of the `${windowId}` template: `undefined` prints as "undefined". -/
def renderWindowId : Option Nat → String
  | none => "undefined"
  | some n => toString n

/-- The metadata staleness TTL, `5 * 60 * 1000` ms (server.js line 525). -/
def TTL : ℚ := 5 * 60 * 1000

/-- Model of `windows.find(w => w && w.id === windowId)`: first window whose numeric id
strictly equals the given id; an `undefined` id matches nothing. -/
def findWindowById (ws : List WindowRecord) (wid : Option Nat) : Option WindowRecord :=
  match wid with
  | none => none
  | some i => ws.find? (fun w => w.id == i)

/-- Assignment `map[id] = value` on the metadata cache. -/
def storePut (store : MetaStore) (j : Nat) (meta : CaptureMetadata) : MetaStore :=
  fun i => if i = j then some meta else store i

/-- Outcome of the `focus_window` capability (server.js lines 1112-1142). -/
inductive FocusOutcome
  | success
  | errNotFound (wid : Option Nat)
  | errPlatform
deriving DecidableEq, Repr

/-- Model of `focus_window({windowId})`: look the window up, then delegate to the
platform-specific `windowHelpers.focusWindow` (modelled by `env.focusOk`). -/
def focus_window (env : Env) (wid : Option Nat) : FocusOutcome :=
  match findWindowById env.windows wid with
  | none => .errNotFound wid
  | some _ => if env.focusOk then .success else .errPlatform

/-- The AI-coordinate → logical-coordinate forward transform of `mouse_move`
(server.js lines 566-567): `Math.round(x * scaleX)`. -/
def aiToLogical (ai scale : ℚ) : ℤ :=
  round (ai * scale)

/-- Observable side effects of a capture / move call, in pipeline order. -/
inductive CapEffect
  | screenshot
  | crop (left top width height : ℚ)
  | resize (targetW targetH : ℤ)
  | encode
  | moveMouse
deriving DecidableEq, Repr

/-- Does an effect list contain a crop? -/
def hasCrop (es : List CapEffect) : Bool :=
  es.any fun e => match e with | .crop _ _ _ _ => true | _ => false

/-- Does an effect list contain a resize? -/
def hasResize (es : List CapEffect) : Bool :=
  es.any fun e => match e with | .resize _ _ => true | _ => false

/-- Does an effect list contain an encode? -/
def hasEncode (es : List CapEffect) : Bool :=
  es.any fun e => match e with | .encode => true | _ => false

/-- Outcome of `mouse_move` (server.js lines 462-796), tagged by the failing
code site.  `errFocusNotFound` and `errMetaWindowNotFound` render to the same
user-visible string `Window not found with ID: ...`. -/
inductive MouseMoveOutcome
  | ok (finalX finalY : ℚ)
  | errFocusNotFound (wid : Option Nat)
  | errFocusPlatform
  | errWindowIdRequired
  | errMetaWindowNotFound (wid : Nat)
  | errConvWindowNotFound (wid : Nat)
deriving DecidableEq, Repr

/-- The user-visible error string of a `mouse_move` failure. -/
def mouseMoveErrorMessage : MouseMoveOutcome → Option String
  | .ok _ _ => none
  | .errFocusNotFound w => some ("Window not found with ID: " ++ renderWindowId w)
  | .errFocusPlatform => some "Failed to focus window"
  | .errWindowIdRequired => some "windowId is a required parameter for mouse_move."
  | .errMetaWindowNotFound w => some ("Window not found with ID: " ++ toString w)
  | .errConvWindowNotFound w =>
      some ("Window not found for coordinate conversion with ID: " ++ toString w)

/-- Result of a `mouse_move` call: the outcome, the metadata cache after the
call, and the observable effects (`robot.moveMouse` when the pointer moved). -/
structure MouseMoveResult where
  outcome : MouseMoveOutcome
  store : MetaStore
  effects : List CapEffect

/-- Model of `mouse_move({x, y, windowId})`, server.js lines 462-796 with
`debug = false` (the debug branch only re-captures diagnostic images).
Steps, in source order:
1. `focus_window({windowId})`; its failure is returned as-is (lines 479-482).
2. the `if (!windowId)` guard (line 488);
3. metadata lookup in `global.windowCaptureMetadata`; a missing record, or
   one older than `TTL`, is replaced by a fresh 1:1 record built from the
   current bounds of the window and stored back (lines 492-547);
4. a fresh window lookup for coordinate conversion (lines 550-555);
5. `scale = originalLogicalSize / aiImageSize` per axis,
   `scaled = Math.round(coord * scale)`, final point = bounds origin +
   scaled (lines 562-571), then `robot.moveMouse` (line 584). -/
def mouse_move (env : Env) (store : MetaStore) (x y : ℚ)
    (windowId : Option Nat) : MouseMoveResult :=
  match focus_window env windowId with
  | .errNotFound w => ⟨.errFocusNotFound w, store, []⟩
  | .errPlatform => ⟨.errFocusPlatform, store, []⟩
  | .success =>
    if jsFalsyId windowId then ⟨.errWindowIdRequired, store, []⟩ else
    match windowId with
    | none => ⟨.errWindowIdRequired, store, []⟩
    | some wid =>
      let freshMeta : Option (CaptureMetadata × MetaStore) :=
        match env.windows.find? (fun w => w.id == wid) with
        | none => none
        | some tw =>
          let m : CaptureMetadata :=
            { windowId := wid
              originalLogicalSize := ⟨tw.bounds.width, tw.bounds.height⟩
              aiImageSize := ⟨tw.bounds.width, tw.bounds.height⟩
              timestamp := env.now }
          some (m, storePut store wid m)
      let metaState : Option (CaptureMetadata × MetaStore) :=
        match store wid with
        | none => freshMeta
        | some m => if env.now - m.timestamp > TTL then freshMeta else some (m, store)
      match metaState with
      | none => ⟨.errMetaWindowNotFound wid, store, []⟩
      | some (m, store') =>
        match env.windows.find? (fun w => w.id == wid) with
        | none => ⟨.errConvWindowNotFound wid, store', []⟩
        | some tw =>
          let scaleX := m.originalLogicalSize.width / m.aiImageSize.width
          let scaleY := m.originalLogicalSize.height / m.aiImageSize.height
          let moveX := tw.bounds.x + (aiToLogical x scaleX : ℚ)
          let moveY := tw.bounds.y + (aiToLogical y scaleY : ℚ)
          ⟨.ok moveX moveY, store', [.moveMouse]⟩

/-- Model of `s.toLowerCase()`. -/
def jsToLower (s : String) : String :=
  s.map Char.toLower

/-- Model of `haystack.toLowerCase().includes(needle.toLowerCase())`. -/
def titleMatches (needle haystack : String) : Bool :=
  decide ((jsToLower needle).toList <:+: (jsToLower haystack).toList)

/-- The display-location tag computed for a window that failed the
primary-display check (server.js lines 1204-1215). -/
inductive DisplayLocation
  | secondaryLeft
  | secondaryRight
  | secondaryTop
  | secondaryBottom
  | secondaryUnknown
deriving DecidableEq, Repr

/-- Location of an off-primary window, mirroring the if-chain on
`bounds.x < 0`, `bounds.x >= primaryScreen.width`, `bounds.y < 0`,
`bounds.y >= primaryScreen.height` (server.js lines 1204-1215). -/
def displayLocationOf (b : Bounds) (screen : Size) : DisplayLocation :=
  if b.x < 0 then .secondaryLeft
  else if b.x ≥ screen.width then .secondaryRight
  else if b.y < 0 then .secondaryTop
  else if b.y ≥ screen.height then .secondaryBottom
  else .secondaryUnknown

/-- The `isOnPrimaryDisplay` test (server.js lines 1197-1200): only the
top-left corner of the window is checked against `[0, width) × [0, height)`. -/
def isOnPrimaryDisplay (b : Bounds) (screen : Size) : Prop :=
  0 ≤ b.x ∧ 0 ≤ b.y ∧ b.x < screen.width ∧ b.y < screen.height

instance (b : Bounds) (screen : Size) : Decidable (isOnPrimaryDisplay b screen) := by
  unfold isOnPrimaryDisplay; infer_instance

/-- The AI-optimization downscale target (server.js lines 391-392 and
1302-1303): `(min(round(w * 0.5), 1280), min(round(h * 0.5), 720))`. -/
def targetDownscaleSize (currentW currentH : ℚ) : ℤ × ℤ :=
  (min (round (currentW * (1 / 2))) 1280, min (round (currentH * (1 / 2))) 720)

/-- The physical-pixel extraction rectangle `(x1, y1, x2, y2)` of
`window_capture` (server.js lines 1249-1263): the logical bounds scaled per
axis by the density ratio and rounded when high-DPI, the raw logical bounds
otherwise. -/
def extractionRect (b : Bounds) (shot screen : Size) : ℚ × ℚ × ℚ × ℚ :=
  let scaleX := shot.width / screen.width
  let scaleY := shot.height / screen.height
  if scaleX > 3 / 2 ∨ scaleY > 3 / 2 then
    ((round (b.x * scaleX) : ℚ), (round (b.y * scaleY) : ℚ),
     (round ((b.x + b.width) * scaleX) : ℚ), (round ((b.y + b.height) * scaleY) : ℚ))
  else
    (b.x, b.y, b.x + b.width, b.y + b.height)

/-- Outcome of `window_capture` (server.js lines 1144-1407), tagged by the
failing code site.  `errTooLarge` carries the measured size in KB and the cap
(the message renders both: `... too large: ...KB (max 300KB)`);
`errBoundsExceed` carries the six numbers of the message `Window bounds
(x1,y1,x2,y2) exceed screenshot dimensions (WxH)`. -/
inductive WindowCaptureOutcome
  | ok (aiWidth aiHeight : ℚ)
  | errParamMissing
  | errWindowNotFound
  | errFocusFailed
  | errInvalidDims (w h : ℚ)
  | errSecondaryDisplay (loc : DisplayLocation)
  | errInvalidRegion
  | errBoundsExceed (x1 y1 x2 y2 imgW imgH : ℚ)
  | errTooLarge (sizeKB capKB : ℚ)
deriving DecidableEq, Repr

/-- Result of a `window_capture` call: outcome, the metadata cache after the
call, and the pipeline effects that ran. -/
structure WindowCaptureResult where
  outcome : WindowCaptureOutcome
  store : MetaStore
  effects : List CapEffect

/-- Model of `window_capture({windowId, windowTitle})`, server.js lines 1144-1407.
Steps, in source order:
1. find the target window by id (`if (windowId)`) or case-insensitive title
   substring, else fail (lines 1158-1168);
2. platform focus; failure aborts the capture (lines 1171-1175);
3. reject non-positive bounds (lines 1189-1191);
4. `isOnPrimaryDisplay` check; failure names the display location
   (lines 1196-1221);
5. full-screen screenshot, density ratio against the logical screen size,
   extraction rectangle (lines 1224-1263);
6. reject non-positive extraction dimensions (line 1275) and rectangles
   exceeding the screenshot (lines 1281-1283), then crop (lines 1286-1291);
7. downscale target from the extraction dimensions; resize only if the
   target is smaller on an axis (lines 1298-1320);
8. encode to WebP and measure the actual output dimensions (lines 1339-1348);
9. fail if the encoded size exceeds 300 KB (lines 1354-1358);
10. store metadata with `aiImageSize` = the measured output size
    (lines 1383-1396) and return the image (lines 1360-1376). -/
def window_capture (env : Env) (store : MetaStore)
    (windowId : Option Nat) (windowTitle : Option String) : WindowCaptureResult :=
  let found : Option (Option WindowRecord) :=
    if !jsFalsyId windowId then
      some (env.windows.find? (fun w => w.id == windowId.getD 0))
    else if !jsFalsyStr windowTitle then
      some (env.windows.find? (fun w => titleMatches (windowTitle.getD "") w.title))
    else none
  match found with
  | none => ⟨.errParamMissing, store, []⟩
  | some none => ⟨.errWindowNotFound, store, []⟩
  | some (some tw) =>
    if !env.focusOk then ⟨.errFocusFailed, store, []⟩ else
    let b := tw.bounds
    if b.width ≤ 0 ∨ b.height ≤ 0 then ⟨.errInvalidDims b.width b.height, store, []⟩ else
    if ¬ isOnPrimaryDisplay b env.screenSize then
      ⟨.errSecondaryDisplay (displayLocationOf b env.screenSize), store, []⟩
    else
      let (x1, y1, x2, y2) := extractionRect b env.shotSize env.screenSize
      let w := x2 - x1
      let h := y2 - y1
      if w ≤ 0 ∨ h ≤ 0 then ⟨.errInvalidRegion, store, [.screenshot]⟩ else
      if x1 < 0 ∨ y1 < 0 ∨ x2 > env.shotSize.width ∨ y2 > env.shotSize.height then
        ⟨.errBoundsExceed x1 y1 x2 y2 env.shotSize.width env.shotSize.height,
          store, [.screenshot]⟩
      else
        let targetW := (targetDownscaleSize w h).1
        let targetH := (targetDownscaleSize w h).2
        let resizeEffects : List CapEffect :=
          if (targetW : ℚ) < w ∨ (targetH : ℚ) < h then [.resize targetW targetH] else []
        let effects := [CapEffect.screenshot, .crop x1 y1 w h] ++ resizeEffects ++ [.encode]
        let aiW := env.finalSize.width
        let aiH := env.finalSize.height
        if env.sizeKB > 300 then ⟨.errTooLarge env.sizeKB 300, store, effects⟩ else
        let meta : CaptureMetadata :=
          { windowId := tw.id
            originalLogicalSize := ⟨b.width, b.height⟩
            aiImageSize := ⟨aiW, aiH⟩
            timestamp := env.now }
        ⟨.ok aiW aiH, storePut store tw.id meta, effects⟩

/-- An optional `{x1, y1, x2, y2}` partial-capture region of `screen_capture`
(all four coordinates must be given together, server.js lines 350-351). -/
structure Region where
  x1 : ℚ
  y1 : ℚ
  x2 : ℚ
  y2 : ℚ
deriving DecidableEq, Repr

/-- Outcome of `screen_capture` (server.js lines 332-460). -/
inductive ScreenCaptureOutcome
  | ok (aiWidth aiHeight : ℚ)
  | errInvalidCoords
  | errTooLarge (sizeKB capKB : ℚ)
deriving DecidableEq, Repr

/-- Result of a `screen_capture` call: outcome, `global.lastScreenCapture`
after the call, and the pipeline effects that ran. -/
structure ScreenCaptureResult where
  outcome : ScreenCaptureOutcome
  lastScreenCapture : Option ScreenCaptureMetadata
  effects : List CapEffect

/-- Model of `screen_capture({x1?, y1?, x2?, y2?})`, server.js lines 332-460.
The screenshot is taken first; a region, when given, is density-scaled like
the window rectangle and cropped (lines 350-382).  The pre-resize size used
for the downscale target is read from `sharpInstance.metadata()`
(lines 386-388), which reports the dimensions of the *input* screenshot even when
a crop was queued — so the target is always computed from the full
screenshot size.  The encoded output is measured, capped at 300 KB, and
`global.lastScreenCapture` records `aiImageSize` = the measured size
(lines 403-440). -/
def screen_capture (env : Env) (last : Option ScreenCaptureMetadata)
    (region : Option Region) : ScreenCaptureResult :=
  let scaleX := env.shotSize.width / env.screenSize.width
  let scaleY := env.shotSize.height / env.screenSize.height
  let isHighDPI : Bool := decide (scaleX > 3 / 2 ∨ scaleY > 3 / 2)
  let cropStep : Option (Option CapEffect) :=
    match region with
    | none => some none
    | some r =>
      let (sx1, sy1, sx2, sy2) :=
        if isHighDPI then
          ((round (r.x1 * scaleX) : ℚ), (round (r.y1 * scaleY) : ℚ),
           (round (r.x2 * scaleX) : ℚ), (round (r.y2 * scaleY) : ℚ))
        else (r.x1, r.y1, r.x2, r.y2)
      let w := sx2 - sx1
      let h := sy2 - sy1
      if w ≤ 0 ∨ h ≤ 0 then none
      else some (some (.crop sx1 sy1 w h))
  match cropStep with
  | none => ⟨.errInvalidCoords, last, [.screenshot]⟩
  | some cropEff =>
    let currentW := env.shotSize.width
    let currentH := env.shotSize.height
    let targetW := (targetDownscaleSize currentW currentH).1
    let targetH := (targetDownscaleSize currentW currentH).2
    let resizeEffects : List CapEffect :=
      if (targetW : ℚ) < currentW ∨ (targetH : ℚ) < currentH then
        [.resize targetW targetH]
      else []
    let effects := [CapEffect.screenshot] ++ cropEff.toList ++ resizeEffects ++ [.encode]
    if env.sizeKB > 300 then ⟨.errTooLarge env.sizeKB 300, last, effects⟩ else
    let meta : ScreenCaptureMetadata :=
      { originalSize := env.shotSize
        logicalScreenSize := env.screenSize
        aiImageSize := env.finalSize
        timestamp := env.now }
    ⟨.ok env.finalSize.width env.finalSize.height, some meta, effects⟩

/-! Section: multiple_desktop_actions (server.js lines 1409-1523). -/

/-- What the dispatched capability call returns for one step: success
(anything whose `success` field is not strictly `false`, including
content-style results) or failure with an error string. -/
inductive StepResult
  | ok
  | failed (msg : String)
deriving DecidableEq, Repr

/-- One entry of the `actions` array: its `type` field (an absent field is
`none`) and the oracle result its capability call would produce. -/
structure ActionStep where
  type : Option String
  result : StepResult
deriving DecidableEq, Repr

/-- The action types the dispatch switch knows (server.js lines 1439-1463). -/
def knownActionTypes : List String :=
  ["mouse_move", "mouse_click", "keyboard_press", "keyboard_type",
   "screen_capture", "window_capture", "focus_window",
   "move_window_to_primary_screen"]

/-- A single quote character, for rendering the quoted type name. -/
def singleQuote : String :=
  String.singleton (Char.ofNat 39)

/-- Message `Action i: type is required` (server.js line 1421). -/
def missingTypeMsg (i : Nat) : String :=
  s!"Action {i}: type is required"

/-- Message for an unknown action type, with the type name quoted
(server.js line 1465). -/
def unknownTypeMsg (i : Nat) (t : String) : String :=
  s!"Action {i}: Unknown action type " ++ singleQuote ++ t ++ singleQuote

/-- Message for a failing dispatched step (server.js line 1482). -/
def failedStepMsg (i : Nat) (t : String) (e : String) : String :=
  s!"Action {i} ({t}): {e}"

/-- One entry of the `results` array of a batch (server.js lines 1425-1429,
1469-1473, 1491-1495). -/
structure StepRecord where
  action : Nat
  type : String
  success : Bool
  error : Option String
deriving DecidableEq, Repr

/-- Overall result of `multiple_desktop_actions`.  `abort` is the
`return { success: false, error }` of lines 1432, 1476 and 1487, which carries
no `results` array; `abortAll` is the (unreachable) line 1503-1508 return;
`done` is the final return of lines 1511-1518 with `success = !hasErrors`. -/
inductive BatchOutcome
  | abort (error : String)
  | abortAll (error : String) (results : List StepRecord)
  | done (success : Bool) (results : List StepRecord) (errors : List String)
deriving DecidableEq, Repr

/-- The loop body of `multiple_desktop_actions`: walk the remaining steps
carrying the 0-based index of the next step and the accumulated `results`,
`errors` and `hasErrors` state (accumulators kept in reverse order). -/
def runSteps (continueOnError : Bool) : List ActionStep → Nat →
    List StepRecord → List String → Bool → BatchOutcome
  | [], _, results, errors, hasErrors =>
    if hasErrors && !continueOnError then
      .abortAll ("Multiple errors occurred: " ++ String.intercalate "; " errors.reverse)
        results.reverse
    else
      .done (!hasErrors) results.reverse errors.reverse
  | step :: rest, i, results, errors, hasErrors =>
    if jsFalsyStr step.type then
      let err := missingTypeMsg i
      if continueOnError then
        runSteps continueOnError rest (i + 1)
          (⟨i, "unknown", false, some err⟩ :: results) (err :: errors) true
      else .abort err
    else
      let t := step.type.getD ""
      if t ∈ knownActionTypes then
        match step.result with
        | .ok => runSteps continueOnError rest (i + 1)
            (⟨i, t, true, none⟩ :: results) errors hasErrors
        | .failed msg =>
          let err := failedStepMsg i t msg
          if !continueOnError then .abort err
          else runSteps continueOnError rest (i + 1)
            (⟨i, t, false, some msg⟩ :: results) (err :: errors) true
      else
        let err := unknownTypeMsg i t
        if continueOnError then
          runSteps continueOnError rest (i + 1)
            (⟨i, t, false, some err⟩ :: results) (err :: errors) true
        else .abort err

/-- Model of `multiple_desktop_actions({actions, continueOnError})`
(server.js lines 1409-1523). -/
def multiple_desktop_actions (steps : List ActionStep)
    (continueOnError : Bool) : BatchOutcome :=
  runSteps continueOnError steps 0 [] [] false

/-- Is a step a failing step: falsy `type`, unknown `type`, or a dispatched
call returning `success === false`? -/
def stepFails (s : ActionStep) : Bool :=
  jsFalsyStr s.type || !(s.type.getD "" ∈ knownActionTypes) ||
    (match s.result with | .ok => false | .failed _ => true)

/-- The `results` entry step `i` produces when the batch continues past it. -/
def stepRecordOf (i : Nat) (s : ActionStep) : StepRecord :=
  if jsFalsyStr s.type then ⟨i, "unknown", false, some (missingTypeMsg i)⟩
  else
    let t := s.type.getD ""
    if t ∈ knownActionTypes then
      match s.result with
      | .ok => ⟨i, t, true, none⟩
      | .failed msg => ⟨i, t, false, some msg⟩
    else ⟨i, t, false, some (unknownTypeMsg i t)⟩

/-- The aggregate error message step `i` contributes, if it fails. -/
def stepErrorOf (i : Nat) (s : ActionStep) : Option String :=
  if jsFalsyStr s.type then some (missingTypeMsg i)
  else
    let t := s.type.getD ""
    if t ∈ knownActionTypes then
      match s.result with
      | .ok => none
      | .failed msg => some (failedStepMsg i t msg)
    else some (unknownTypeMsg i t)

/-- Expected `results` array for a run starting at index `i`, one entry per
step. -/
def expectedRecords (i : Nat) : List ActionStep → List StepRecord
  | [] => []
  | s :: rest => stepRecordOf i s :: expectedRecords (i + 1) rest

/-- Expected aggregate `errors` list for a run starting at index `i`. -/
def expectedErrors (i : Nat) : List ActionStep → List String
  | [] => []
  | s :: rest =>
    match stepErrorOf i s with
    | none => expectedErrors (i + 1) rest
    | some e => e :: expectedErrors (i + 1) rest

/-! Section: concrete fixtures used by witness and counterexample theorems. -/

/-- An empty metadata cache. -/
def emptyStore : MetaStore := fun _ => none

/-- A window on the primary display of a standard-density 1920×1080 screen. -/
def witWin : WindowRecord := ⟨1, "Calculator", ⟨10, 20, 100, 50⟩⟩

/-- Standard-density environment: the capture pipeline on `witWin` succeeds
and its encoded output measures 50×30 (an aspect-preserving overshoot of the
50×25 target) at 10 KB. -/
def witEnv : Env := ⟨[witWin], ⟨1920, 1080⟩, ⟨1920, 1080⟩, ⟨50, 30⟩, 10, 0, true⟩

/-- A cached capture-metadata record for `witWin`, downscaled 2×. -/
def witMeta : CaptureMetadata := ⟨1, ⟨100, 50⟩, ⟨50, 25⟩, 0⟩

/-- A metadata cache holding `witMeta` for window 1. -/
def witStore : MetaStore := fun i => if i = 1 then some witMeta else none

/-- A stale record for window 1: captured at time `- (TTL + 1)` ms. -/
def staleMeta : CaptureMetadata := ⟨1, ⟨400, 300⟩, ⟨200, 150⟩, -(5 * 60 * 1000 + 1)⟩

/-- A metadata cache holding only the stale `staleMeta`. -/
def staleStore : MetaStore := fun i => if i = 1 then some staleMeta else none

/-- A window straddling the right edge of a 1920×1080 primary display: its
top-left corner (100, 100) is on the primary display but its 5000-wide body
extends far beyond it. -/
def straddleEnv : Env :=
  ⟨[⟨1, "wide", ⟨100, 100, 5000, 100⟩⟩], ⟨1920, 1080⟩, ⟨1920, 1080⟩, ⟨50, 50⟩, 10, 0, true⟩

/-- A window wholly left of the primary display. -/
def offLeftEnv : Env :=
  ⟨[⟨3, "side", ⟨-500, 10, 100, 100⟩⟩], ⟨1920, 1080⟩, ⟨1920, 1080⟩, ⟨50, 50⟩, 10, 0, true⟩

/-- A window whose extraction rectangle (900, 900, 1100, 1100) exceeds the
1000×1000 screenshot. -/
def hangEnv : Env :=
  ⟨[⟨2, "hang", ⟨900, 900, 200, 200⟩⟩], ⟨1000, 1000⟩, ⟨1000, 1000⟩, ⟨50, 50⟩, 10, 0, true⟩

/-- A 2000×1000 standard-density screen; any capture encodes to 50×50, 10 KB. -/
def wideScreenEnv : Env :=
  ⟨[], ⟨2000, 1000⟩, ⟨2000, 1000⟩, ⟨50, 50⟩, 10, 0, true⟩

/-- Variant of `witEnv` with an encoded output of 400 KB. -/
def bigOutputEnv : Env := ⟨[witWin], ⟨1920, 1080⟩, ⟨1920, 1080⟩, ⟨50, 30⟩, 400, 0, true⟩

/-- A batch step whose capability call succeeds. -/
def stepOk : ActionStep := ⟨some "mouse_move", .ok⟩

/-- A batch step whose capability call fails with "boom". -/
def stepBad : ActionStep := ⟨some "mouse_move", .failed "boom"⟩

/-- The pipeline effects of a `window_capture` that reaches the encode stage
with extraction rectangle `(x1, y1, x2, y2)`: screenshot, crop, a resize when
the downscale target computed from the extraction size is smaller on an axis,
then encode. -/
def windowCaptureEffects (x1 y1 x2 y2 : ℚ) : List CapEffect :=
  [.screenshot, .crop x1 y1 (x2 - x1) (y2 - y1)] ++
  (if ((targetDownscaleSize (x2 - x1) (y2 - y1)).1 : ℚ) < x2 - x1 ∨
      ((targetDownscaleSize (x2 - x1) (y2 - y1)).2 : ℚ) < y2 - y1 then
    [.resize (targetDownscaleSize (x2 - x1) (y2 - y1)).1
      (targetDownscaleSize (x2 - x1) (y2 - y1)).2]
  else []) ++ [.encode]

/-- The resize effects of a `screen_capture`: the target is always computed
from `env.shotSize` (what `sharpInstance.metadata()` reports), not from any
crop. -/
def screenCaptureResizeEffects (env : Env) : List CapEffect :=
  if ((targetDownscaleSize env.shotSize.width env.shotSize.height).1 : ℚ) <
      env.shotSize.width ∨
      ((targetDownscaleSize env.shotSize.width env.shotSize.height).2 : ℚ) <
      env.shotSize.height then
    [.resize (targetDownscaleSize env.shotSize.width env.shotSize.height).1
      (targetDownscaleSize env.shotSize.width env.shotSize.height).2]
  else []

/-! Section: helper lemmas. -/

/-- The value `min(round(w * 0.5), cap)` never exceeds `w` for non-negative `w`:
rounding half of a quantity ≥ 1 stays below it, and half of a quantity < 1
rounds to 0. -/
theorem round_half_min_cap_le (w : ℚ) (cap : ℤ) (hw : 0 ≤ w) :
    ((min (round (w * (1 / 2))) cap : ℤ) : ℚ) ≤ w := by
  have hmin : ((min (round (w * (1 / 2))) cap : ℤ) : ℚ) ≤ ((round (w * (1 / 2)) : ℤ) : ℚ) := by
    exact_mod_cast min_le_left _ _
  rcases le_or_lt 1 w with h1 | h1
  · have hf : ((round (w * (1 / 2)) : ℤ) : ℚ) ≤ w * (1 / 2) + 1 / 2 := by
      rw [round_eq]
      exact Int.floor_le _
    linarith
  · have hlt : w * (1 / 2) + 1 / 2 < ((1 : ℤ) : ℚ) := by push_cast; linarith
    have hle : round (w * (1 / 2)) ≤ 0 := by
      rw [round_eq]
      have := Int.floor_lt.mpr hlt
      omega
    have : ((round (w * (1 / 2)) : ℤ) : ℚ) ≤ 0 := by exact_mod_cast hle
    linarith

/-- A lookup in `storePut store j meta` returns either an old record or
`meta` itself. -/
theorem storePut_lookup {store : MetaStore} {j i : Nat} {meta m : CaptureMetadata}
    (h : storePut store j meta i = some m) : store i = some m ∨ m = meta := by
  unfold storePut at h
  by_cases hij : i = j
  · rw [if_pos hij] at h
    exact Or.inr (Option.some.inj h).symm
  · rw [if_neg hij] at h
    exact Or.inl h

/-- Run lemma: `window_capture` on a primary-display window whose extraction
rectangle is valid runs to the encode stage and either fails on the size cap
or succeeds, storing metadata with the measured output size. -/
theorem window_capture_run_primary (env : Env) (store : MetaStore) (wid : Nat)
    (tw : WindowRecord) (x1 y1 x2 y2 : ℚ)
    (hwid : wid ≠ 0) (hfocus : env.focusOk = true)
    (hfind : env.windows.find? (fun w => w.id == wid) = some tw)
    (hbw : 0 < tw.bounds.width) (hbh : 0 < tw.bounds.height)
    (hprim : isOnPrimaryDisplay tw.bounds env.screenSize)
    (hrect : extractionRect tw.bounds env.shotSize env.screenSize = (x1, y1, x2, y2))
    (hw : 0 < x2 - x1) (hh : 0 < y2 - y1)
    (hin : ¬ (x1 < 0 ∨ y1 < 0 ∨ x2 > env.shotSize.width ∨ y2 > env.shotSize.height)) :
    window_capture env store (some wid) none =
      if env.sizeKB > 300 then
        ⟨.errTooLarge env.sizeKB 300, store, windowCaptureEffects x1 y1 x2 y2⟩
      else
        ⟨.ok env.finalSize.width env.finalSize.height,
          storePut store tw.id ⟨tw.id, ⟨tw.bounds.width, tw.bounds.height⟩,
            ⟨env.finalSize.width, env.finalSize.height⟩, env.now⟩,
          windowCaptureEffects x1 y1 x2 y2⟩ := by
  have hfalsy : jsFalsyId (some wid) = false := by
    simp [jsFalsyId, hwid]
  have hdims : ¬ (tw.bounds.width ≤ 0 ∨ tw.bounds.height ≤ 0) := by
    push_neg
    exact ⟨hbw, hbh⟩
  have hwh : ¬ (x2 - x1 ≤ 0 ∨ y2 - y1 ≤ 0) := by
    push_neg
    exact ⟨hw, hh⟩
  unfold window_capture
  rw [hfalsy]
  simp only [Bool.not_false, if_true, Option.getD_some, hfind, hfocus, Bool.not_true,
    Bool.false_eq_true, if_false, if_neg hdims, if_neg (not_not_intro hprim), hrect,
    if_neg hwh, if_neg hin, windowCaptureEffects]

/-- Run lemma: `window_capture` on a window failing the `isOnPrimaryDisplay`
check rejects before the screenshot with the display-location error. -/
theorem window_capture_run_secondary (env : Env) (store : MetaStore) (wid : Nat)
    (tw : WindowRecord)
    (hwid : wid ≠ 0) (hfocus : env.focusOk = true)
    (hfind : env.windows.find? (fun w => w.id == wid) = some tw)
    (hbw : 0 < tw.bounds.width) (hbh : 0 < tw.bounds.height)
    (hnotprim : ¬ isOnPrimaryDisplay tw.bounds env.screenSize) :
    window_capture env store (some wid) none =
      ⟨.errSecondaryDisplay (displayLocationOf tw.bounds env.screenSize), store, []⟩ := by
  have hfalsy : jsFalsyId (some wid) = false := by
    simp [jsFalsyId, hwid]
  have hdims : ¬ (tw.bounds.width ≤ 0 ∨ tw.bounds.height ≤ 0) := by
    push_neg
    exact ⟨hbw, hbh⟩
  unfold window_capture
  rw [hfalsy]
  simp only [Bool.not_false, if_true, Option.getD_some, hfind, hfocus, Bool.not_true,
    Bool.false_eq_true, if_false, if_neg hdims, if_pos hnotprim]

/-- Run lemma: `window_capture` whose extraction rectangle exceeds the
screenshot reports all six numbers; no crop runs and the cache is
untouched. -/
theorem window_capture_run_boundsExceed (env : Env) (store : MetaStore) (wid : Nat)
    (tw : WindowRecord) (x1 y1 x2 y2 : ℚ)
    (hwid : wid ≠ 0) (hfocus : env.focusOk = true)
    (hfind : env.windows.find? (fun w => w.id == wid) = some tw)
    (hbw : 0 < tw.bounds.width) (hbh : 0 < tw.bounds.height)
    (hprim : isOnPrimaryDisplay tw.bounds env.screenSize)
    (hrect : extractionRect tw.bounds env.shotSize env.screenSize = (x1, y1, x2, y2))
    (hw : 0 < x2 - x1) (hh : 0 < y2 - y1)
    (hviol : x1 < 0 ∨ y1 < 0 ∨ x2 > env.shotSize.width ∨ y2 > env.shotSize.height) :
    window_capture env store (some wid) none =
      ⟨.errBoundsExceed x1 y1 x2 y2 env.shotSize.width env.shotSize.height,
        store, [.screenshot]⟩ := by
  have hfalsy : jsFalsyId (some wid) = false := by
    simp [jsFalsyId, hwid]
  have hdims : ¬ (tw.bounds.width ≤ 0 ∨ tw.bounds.height ≤ 0) := by
    push_neg
    exact ⟨hbw, hbh⟩
  have hwh : ¬ (x2 - x1 ≤ 0 ∨ y2 - y1 ≤ 0) := by
    push_neg
    exact ⟨hw, hh⟩
  unfold window_capture
  rw [hfalsy]
  simp only [Bool.not_false, if_true, Option.getD_some, hfind, hfocus, Bool.not_true,
    Bool.false_eq_true, if_false, if_neg hdims, if_neg (not_not_intro hprim), hrect,
    if_neg hwh, if_pos hviol]

/-- Run lemma: `screen_capture` without a region computes the downscale
target from the screenshot size (which here is also the pre-resize size). -/
theorem screen_capture_run_noRegion (env : Env) (last : Option ScreenCaptureMetadata) :
    screen_capture env last none =
      if env.sizeKB > 300 then
        ⟨.errTooLarge env.sizeKB 300, last,
          [CapEffect.screenshot] ++ screenCaptureResizeEffects env ++ [.encode]⟩
      else
        ⟨.ok env.finalSize.width env.finalSize.height,
          some ⟨env.shotSize, env.screenSize, env.finalSize, env.now⟩,
          [CapEffect.screenshot] ++ screenCaptureResizeEffects env ++ [.encode]⟩ := by
  unfold screen_capture screenCaptureResizeEffects
  rfl

/-- Run lemma: `screen_capture` with a valid region on a standard-density
display crops the raw region, but the downscale target still comes from the
full screenshot size (the `sharp` metadata quirk). -/
theorem screen_capture_run_region (env : Env) (last : Option ScreenCaptureMetadata)
    (r : Region)
    (hdpi : ¬ (env.shotSize.width / env.screenSize.width > 3 / 2 ∨
               env.shotSize.height / env.screenSize.height > 3 / 2))
    (hw : 0 < r.x2 - r.x1) (hh : 0 < r.y2 - r.y1) :
    screen_capture env last (some r) =
      if env.sizeKB > 300 then
        ⟨.errTooLarge env.sizeKB 300, last,
          [CapEffect.screenshot, .crop r.x1 r.y1 (r.x2 - r.x1) (r.y2 - r.y1)] ++
            screenCaptureResizeEffects env ++ [.encode]⟩
      else
        ⟨.ok env.finalSize.width env.finalSize.height,
          some ⟨env.shotSize, env.screenSize, env.finalSize, env.now⟩,
          [CapEffect.screenshot, .crop r.x1 r.y1 (r.x2 - r.x1) (r.y2 - r.y1)] ++
            screenCaptureResizeEffects env ++ [.encode]⟩ := by
  have hb : decide (env.shotSize.width / env.screenSize.width > 3 / 2 ∨
      env.shotSize.height / env.screenSize.height > 3 / 2) = false :=
    decide_eq_false hdpi
  have hwh : ¬ (r.x2 - r.x1 ≤ 0 ∨ r.y2 - r.y1 ≤ 0) := by
    push_neg
    exact ⟨hw, hh⟩
  unfold screen_capture screenCaptureResizeEffects
  simp only [hb, Bool.false_eq_true, if_false, if_neg hwh, Option.toList_some,
    List.singleton_append, List.cons_append, List.nil_append]

/-- Run lemma: `mouse_move` on a fresh cached record uses the record as-is
and leaves the cache untouched. -/
theorem mouse_move_run_cached (env : Env) (store : MetaStore) (x y : ℚ) (wid : Nat)
    (tw : WindowRecord) (m : CaptureMetadata)
    (hwid : wid ≠ 0) (hfocus : env.focusOk = true)
    (hfind : env.windows.find? (fun w => w.id == wid) = some tw)
    (hstore : store wid = some m)
    (hfresh : ¬ env.now - m.timestamp > TTL) :
    mouse_move env store x y (some wid) =
      ⟨.ok (tw.bounds.x + (aiToLogical x (m.originalLogicalSize.width / m.aiImageSize.width) : ℚ))
           (tw.bounds.y + (aiToLogical y (m.originalLogicalSize.height / m.aiImageSize.height) : ℚ)),
        store, [.moveMouse]⟩ := by
  have hfalsy : jsFalsyId (some wid) = false := by
    simp [jsFalsyId, hwid]
  have hfocus' : focus_window env (some wid) = .success := by
    unfold focus_window findWindowById
    simp only [hfind, hfocus, if_true]
  unfold mouse_move
  rw [hfocus', hfalsy]
  simp only [Bool.false_eq_true, if_false, hstore, if_neg hfresh, hfind]

/-- Run lemma: `mouse_move` on a missing or stale record uses a fresh 1:1
record built from the current bounds of the window and writes it back. -/
theorem mouse_move_run_fallback (env : Env) (store : MetaStore) (x y : ℚ) (wid : Nat)
    (tw : WindowRecord)
    (hwid : wid ≠ 0) (hfocus : env.focusOk = true)
    (hfind : env.windows.find? (fun w => w.id == wid) = some tw)
    (hstale : store wid = none ∨
      ∃ m₀, store wid = some m₀ ∧ env.now - m₀.timestamp > TTL) :
    mouse_move env store x y (some wid) =
      ⟨.ok (tw.bounds.x + (aiToLogical x (tw.bounds.width / tw.bounds.width) : ℚ))
           (tw.bounds.y + (aiToLogical y (tw.bounds.height / tw.bounds.height) : ℚ)),
        storePut store wid ⟨wid, ⟨tw.bounds.width, tw.bounds.height⟩,
          ⟨tw.bounds.width, tw.bounds.height⟩, env.now⟩,
        [.moveMouse]⟩ := by
  have hfalsy : jsFalsyId (some wid) = false := by
    simp [jsFalsyId, hwid]
  have hfocus' : focus_window env (some wid) = .success := by
    unfold focus_window findWindowById
    simp only [hfind, hfocus, if_true]
  unfold mouse_move
  rw [hfocus', hfalsy]
  rcases hstale with hnone | ⟨m₀, hsome, hage⟩
  · simp only [Bool.false_eq_true, if_false, hnone, hfind]
  · simp only [Bool.false_eq_true, if_false, hsome, if_pos hage, hfind]

/-! Section: claim theorems. -/

/-- C1: a `mouse_move` on a window whose cached metadata
`{originalLogicalSize, aiImageSize}` is fresh, with the window still present,
moves the pointer to `(bounds.x + round(aiX * L.w / A.w),
bounds.y + round(aiY * L.h / A.h))` computed from the *current* window
bounds; in particular AI-point `(0,0)` resolves to exactly `(bounds.x,
bounds.y)`, and `(A.w, A.h)` with `originalLogicalSize` equal to the bounds
size resolves to `(bounds.x + width, bounds.y + height)` within rounding
tolerance (±1/2).  The hypothesis `wid ≠ 0` reflects that window ids are JS
truthy values (`list_windows` filters falsy ids out, server.js line 985). -/
theorem mouse_move_fresh_metadata_resolves_window_offset
    (env : Env) (store : MetaStore) (x y : ℚ) (wid : Nat)
    (tw : WindowRecord) (m : CaptureMetadata)
    (hwid : wid ≠ 0) (hfocus : env.focusOk = true)
    (hfind : env.windows.find? (fun w => w.id == wid) = some tw)
    (hstore : store wid = some m)
    (hfresh : ¬ env.now - m.timestamp > TTL)
    (hAw : 0 < m.aiImageSize.width) (hAh : 0 < m.aiImageSize.height) :
    (mouse_move env store x y (some wid)).outcome =
      .ok (tw.bounds.x +
            (round (x * (m.originalLogicalSize.width / m.aiImageSize.width)) : ℚ))
          (tw.bounds.y +
            (round (y * (m.originalLogicalSize.height / m.aiImageSize.height)) : ℚ)) ∧
    (x = 0 → y = 0 →
      (mouse_move env store x y (some wid)).outcome = .ok tw.bounds.x tw.bounds.y) ∧
    (m.originalLogicalSize = ⟨tw.bounds.width, tw.bounds.height⟩ →
      x = m.aiImageSize.width → y = m.aiImageSize.height →
      ∃ fx fy, (mouse_move env store x y (some wid)).outcome = .ok fx fy ∧
        |fx - (tw.bounds.x + tw.bounds.width)| ≤ 1 / 2 ∧
        |fy - (tw.bounds.y + tw.bounds.height)| ≤ 1 / 2) := by
  have hrun := mouse_move_run_cached env store x y wid tw m hwid hfocus hfind hstore hfresh
  refine ⟨by rw [hrun]; rfl, ?_, ?_⟩
  · intro hx hy
    subst hx; subst hy
    rw [hrun]
    simp [aiToLogical]
  · intro hL hx hy
    subst hx; subst hy
    have hAw' : m.aiImageSize.width ≠ 0 := ne_of_gt hAw
    have hAh' : m.aiImageSize.height ≠ 0 := ne_of_gt hAh
    refine ⟨_, _, by rw [hrun], ?_, ?_⟩
    · simp only [hL, aiToLogical]
      rw [mul_comm, div_mul_cancel₀ _ hAw']
      have heq : tw.bounds.x + (round tw.bounds.width : ℚ) -
          (tw.bounds.x + tw.bounds.width) = (round tw.bounds.width : ℚ) - tw.bounds.width := by
        ring
      rw [heq, abs_sub_comm]
      exact abs_sub_round _
    · simp only [hL, aiToLogical]
      rw [mul_comm, div_mul_cancel₀ _ hAh']
      have heq : tw.bounds.y + (round tw.bounds.height : ℚ) -
          (tw.bounds.y + tw.bounds.height) = (round tw.bounds.height : ℚ) - tw.bounds.height := by
        ring
      rw [heq, abs_sub_comm]
      exact abs_sub_round _

/-- Witness for C1: window at (10,20) size 100×50, cached metadata downscaled
2× (aiImageSize 50×25); AI point (30,10) lands at (10+60, 20+20) = (70,40). -/
theorem mouse_move_fresh_metadata_resolves_window_offset_witness :
    (1 : Nat) ≠ 0 ∧ witEnv.focusOk = true ∧ witStore 1 = some witMeta ∧
    (mouse_move witEnv witStore 30 10 (some 1)).outcome = .ok 70 40 := by
  have h := (mouse_move_fresh_metadata_resolves_window_offset witEnv witStore 30 10 1
    witWin witMeta (by decide) rfl rfl rfl
    (by norm_num [TTL, witEnv, witMeta]) (by norm_num [witMeta]) (by norm_num [witMeta])).1
  refine ⟨by decide, rfl, rfl, ?_⟩
  rw [h]
  norm_num [witMeta, witWin, round_eq]

/-- C2 counterexample: the claimed round-trip bound fails for arbitrary
positive metadata.  With `sourceLogical = 1`, `aiImage = 4` and AI point
`ax = 2` (inside `[0, 4]`), the forward transform gives
`round(2 · 1/4) = round(1/2) = 1`, and inverting with ratio `4/1` yields 4,
which is 2 pixels away from the original point. -/
theorem roundtrip_any_metadata_counterexample :
    (0 : ℚ) < 1 ∧ (0 : ℚ) < 4 ∧ (0 : ℚ) ≤ 2 ∧ (2 : ℚ) ≤ 4 ∧
    ¬ |((aiToLogical 2 ((1 : ℚ) / 4) : ℚ)) * ((4 : ℚ) / 1) - 2| ≤ 1 := by
  refine ⟨by norm_num, by norm_num, by norm_num, by norm_num, ?_⟩
  have h : aiToLogical 2 ((1 : ℚ) / 4) = 1 := by
    norm_num [aiToLogical, round_eq]
  rw [h]
  norm_num

/-- C2 (amended): the round-trip bound holds whenever the metadata
satisfies `aiImageSize ≤ 2 · sourceLogicalSize` on the axis (true of every
record the capture pipeline produces): `logical = round(ai · L/A)` inverted
with ratio `A/L` recovers the AI coordinate within ±1 pixel. -/
theorem roundtrip_scale_invariance_bounded_ratio (L A ax : ℚ)
    (hL : 0 < L) (hA : 0 < A) (hax0 : 0 ≤ ax) (haxA : ax ≤ A) (h2 : A ≤ 2 * L) :
    |((aiToLogical ax (L / A) : ℚ)) * (A / L) - ax| ≤ 1 := by
  have hL0 : L ≠ 0 := ne_of_gt hL
  have hA0 : A ≠ 0 := ne_of_gt hA
  have key : ((aiToLogical ax (L / A) : ℚ)) * (A / L) - ax
      = ((round (ax * (L / A)) : ℚ) - ax * (L / A)) * (A / L) := by
    unfold aiToLogical
    field_simp
    ring
  rw [key, abs_mul, abs_of_pos (div_pos hA hL)]
  have h1 : |(round (ax * (L / A)) : ℚ) - ax * (L / A)| ≤ 1 / 2 := by
    rw [abs_sub_comm]
    exact abs_sub_round _
  have hALpos : (0 : ℚ) ≤ A / L := le_of_lt (div_pos hA hL)
  calc |(round (ax * (L / A)) : ℚ) - ax * (L / A)| * (A / L)
      ≤ (1 / 2) * (A / L) := mul_le_mul_of_nonneg_right h1 hALpos
    _ ≤ 1 := by
        have hAL : A / L ≤ 2 := (div_le_iff₀ hL).mpr (by linarith)
        linarith

/-- Witness for amended C2 at `L = 1`, `A = 2`, `ax = 1` (the bound is
tight: the round trip lands exactly 1 pixel away). -/
theorem roundtrip_scale_invariance_bounded_ratio_witness :
    (0 : ℚ) < 1 ∧ (0 : ℚ) < 2 ∧ (2 : ℚ) ≤ 2 * 1 ∧
    |((aiToLogical 1 ((1 : ℚ) / 2) : ℚ)) * ((2 : ℚ) / 1) - 1| ≤ 1 :=
  ⟨by norm_num, by norm_num, by norm_num,
    roundtrip_scale_invariance_bounded_ratio 1 2 1 (by norm_num) (by norm_num)
      (by norm_num) (by norm_num) (by norm_num)⟩

/-- C3: a `mouse_move` whose cached metadata is missing or older than the
5-minute TTL never uses the old record: it synthesizes a 1:1 record from the
current window bounds (fresh timestamp), stores it in the cache, and
resolves with it (final point = bounds origin + rounded raw coordinates);
the call fails only when the fresh window lookup finds no window with that
id, with the `Window not found with ID` error. -/
theorem mouse_move_stale_or_missing_metadata_fallback
    (env : Env) (store : MetaStore) (x y : ℚ) (wid : Nat)
    (hwid : wid ≠ 0) (hfocus : env.focusOk = true)
    (hstale : store wid = none ∨
      ∃ m₀, store wid = some m₀ ∧ env.now - m₀.timestamp > TTL) :
    (∀ tw, env.windows.find? (fun w => w.id == wid) = some tw →
      tw.bounds.width ≠ 0 → tw.bounds.height ≠ 0 →
      (mouse_move env store x y (some wid)).outcome =
        .ok (tw.bounds.x + (round x : ℚ)) (tw.bounds.y + (round y : ℚ)) ∧
      (mouse_move env store x y (some wid)).store wid =
        some ⟨wid, ⟨tw.bounds.width, tw.bounds.height⟩,
          ⟨tw.bounds.width, tw.bounds.height⟩, env.now⟩ ∧
      CapEffect.moveMouse ∈ (mouse_move env store x y (some wid)).effects) ∧
    (env.windows.find? (fun w => w.id == wid) = none →
      (mouse_move env store x y (some wid)).outcome = .errFocusNotFound (some wid) ∧
      mouseMoveErrorMessage (mouse_move env store x y (some wid)).outcome =
        some ("Window not found with ID: " ++ toString wid) ∧
      (mouse_move env store x y (some wid)).store wid = store wid) := by
  constructor
  · intro tw hfind hbw hbh
    have hrun := mouse_move_run_fallback env store x y wid tw hwid hfocus hfind hstale
    refine ⟨?_, ?_, ?_⟩
    · rw [hrun]
      simp [aiToLogical, div_self hbw, div_self hbh]
    · rw [hrun]
      simp [storePut]
    · rw [hrun]
      simp
  · intro hfind
    have hrun : mouse_move env store x y (some wid) =
        ⟨.errFocusNotFound (some wid), store, []⟩ := by
      unfold mouse_move
      rw [show focus_window env (some wid) = .errNotFound (some wid) by
            unfold focus_window findWindowById
            simp only [hfind]]
    rw [hrun]
    exact ⟨rfl, rfl, rfl⟩

/-- Witness for C3: a record captured `TTL + 1` ms ago is ignored; the call
resolves 1:1 against the fresh 100×50 bounds and rewrites the cache. -/
theorem mouse_move_stale_or_missing_metadata_fallback_witness :
    staleStore 1 = some staleMeta ∧ witEnv.now - staleMeta.timestamp > TTL ∧
    (mouse_move witEnv staleStore 3 4 (some 1)).outcome = .ok 13 24 ∧
    (mouse_move witEnv staleStore 3 4 (some 1)).store 1 =
      some ⟨1, ⟨100, 50⟩, ⟨100, 50⟩, 0⟩ := by
  have h := (mouse_move_stale_or_missing_metadata_fallback witEnv staleStore 3 4 1
    (by decide) rfl
    (Or.inr ⟨staleMeta, rfl, by norm_num [TTL, witEnv, staleMeta]⟩)).1
    witWin rfl (by norm_num [witWin]) (by norm_num [witWin])
  refine ⟨rfl, by norm_num [TTL, witEnv, staleMeta], ?_, ?_⟩
  · rw [h.1]
    norm_num [witWin, round_eq]
  · rw [h.2.1]
    norm_num [witWin, witEnv]

/-- C10: a `mouse_move` whose params omit `windowId` fails without
moving the pointer; the failure comes from the initial focus step, whose
lookup with an `undefined` id matches nothing and yields the error
`Window not found with ID: undefined`, so the dedicated
`windowId is a required parameter` branch after the focus step is never
reached. -/
theorem mouse_move_missing_windowId_fails_at_focus
    (env : Env) (store : MetaStore) (x y : ℚ) :
    (mouse_move env store x y none).outcome = .errFocusNotFound none ∧
    mouseMoveErrorMessage (mouse_move env store x y none).outcome =
      some "Window not found with ID: undefined" ∧
    (mouse_move env store x y none).effects = [] ∧
    (mouse_move env store x y none).store = store ∧
    (mouse_move env store x y none).outcome ≠ .errWindowIdRequired := by
  have h : mouse_move env store x y none = ⟨.errFocusNotFound none, store, []⟩ := rfl
  rw [h]
  exact ⟨rfl, rfl, rfl, rfl, by simp⟩

/-- C4 counterexample: a region screen capture on a 2000×1000
standard-density screen that crops a 100×100 region computes the downscale
target from the *full screenshot* size (`sharpInstance.metadata()` reports
the dimensions of the input image): the pipeline resizes with target (1000, 500),
which exceeds the 100×100 pre-resize size on both axes, instead of the
claimed `min(round(100·0.5), cap) = 50` per axis. -/
theorem downscale_target_counterexample :
    (screen_capture wideScreenEnv none (some ⟨0, 0, 100, 100⟩)).effects =
      [.screenshot, .crop 0 0 100 100, .resize 1000 500, .encode] ∧
    targetDownscaleSize 100 100 = (50, 50) ∧
    ((1000 : ℤ) : ℚ) > 100 ∧ ((500 : ℤ) : ℚ) > 100 := by
  refine ⟨?_, ?_, by norm_num, by norm_num⟩
  · have h := screen_capture_run_region wideScreenEnv none ⟨0, 0, 100, 100⟩
      (by norm_num [wideScreenEnv]) (by norm_num) (by norm_num)
    rw [h, if_neg (by norm_num [wideScreenEnv] : ¬ wideScreenEnv.sizeKB > 300)]
    norm_num [screenCaptureResizeEffects, targetDownscaleSize, wideScreenEnv, round_eq]
  · norm_num [targetDownscaleSize, round_eq, Prod.ext_iff]

/-- C4 (amended): `targetDownscaleSize` itself never exceeds its input
(no upscaling relative to the size it is fed); `window_capture` computes the
target from the pre-resize (extraction) size and resizes exactly when the
target is smaller on an axis; `screen_capture` always computes the target
from the full screenshot size — which equals the pre-resize size only when
no crop region is given. -/
theorem downscale_target_amended :
    (∀ w h : ℚ, 0 ≤ w → 0 ≤ h →
      ((targetDownscaleSize w h).1 : ℚ) ≤ w ∧ ((targetDownscaleSize w h).2 : ℚ) ≤ h) ∧
    (∀ (env : Env) (store : MetaStore) (wid : Nat) (tw : WindowRecord) (x1 y1 x2 y2 : ℚ),
      wid ≠ 0 → env.focusOk = true →
      env.windows.find? (fun w => w.id == wid) = some tw →
      0 < tw.bounds.width → 0 < tw.bounds.height →
      isOnPrimaryDisplay tw.bounds env.screenSize →
      extractionRect tw.bounds env.shotSize env.screenSize = (x1, y1, x2, y2) →
      0 < x2 - x1 → 0 < y2 - y1 →
      ¬ (x1 < 0 ∨ y1 < 0 ∨ x2 > env.shotSize.width ∨ y2 > env.shotSize.height) →
      (window_capture env store (some wid) none).effects =
        windowCaptureEffects x1 y1 x2 y2 ∧
      (hasResize (windowCaptureEffects x1 y1 x2 y2) = true ↔
        ((targetDownscaleSize (x2 - x1) (y2 - y1)).1 : ℚ) < x2 - x1 ∨
        ((targetDownscaleSize (x2 - x1) (y2 - y1)).2 : ℚ) < y2 - y1)) ∧
    (∀ (env : Env) (last : Option ScreenCaptureMetadata),
      (screen_capture env last none).effects =
        [CapEffect.screenshot] ++ screenCaptureResizeEffects env ++ [CapEffect.encode] ∧
      (hasResize (screenCaptureResizeEffects env) = true ↔
        ((targetDownscaleSize env.shotSize.width env.shotSize.height).1 : ℚ) <
          env.shotSize.width ∨
        ((targetDownscaleSize env.shotSize.width env.shotSize.height).2 : ℚ) <
          env.shotSize.height)) ∧
    (∀ (env : Env) (last : Option ScreenCaptureMetadata) (r : Region),
      ¬ (env.shotSize.width / env.screenSize.width > 3 / 2 ∨
         env.shotSize.height / env.screenSize.height > 3 / 2) →
      0 < r.x2 - r.x1 → 0 < r.y2 - r.y1 →
      (screen_capture env last (some r)).effects =
        [CapEffect.screenshot, .crop r.x1 r.y1 (r.x2 - r.x1) (r.y2 - r.y1)] ++
          screenCaptureResizeEffects env ++ [CapEffect.encode]) := by
  refine ⟨?_, ?_, ?_, ?_⟩
  · intro w h hw hh
    exact ⟨round_half_min_cap_le w 1280 hw, round_half_min_cap_le h 720 hh⟩
  · intro env store wid tw x1 y1 x2 y2 hwid hfocus hfind hbw hbh hprim hrect hw hh hin
    constructor
    · rw [window_capture_run_primary env store wid tw x1 y1 x2 y2 hwid hfocus hfind
        hbw hbh hprim hrect hw hh hin]
      split <;> rfl
    · unfold windowCaptureEffects
      by_cases hc : ((targetDownscaleSize (x2 - x1) (y2 - y1)).1 : ℚ) < x2 - x1 ∨
          ((targetDownscaleSize (x2 - x1) (y2 - y1)).2 : ℚ) < y2 - y1
      · simp [hc, hasResize]
      · simp [hc, hasResize]
  · intro env last
    constructor
    · rw [screen_capture_run_noRegion env last]
      split <;> rfl
    · unfold screenCaptureResizeEffects
      by_cases hc : ((targetDownscaleSize env.shotSize.width env.shotSize.height).1 : ℚ) <
          env.shotSize.width ∨
          ((targetDownscaleSize env.shotSize.width env.shotSize.height).2 : ℚ) <
          env.shotSize.height
      · simp [hc, hasResize]
      · simp [hc, hasResize]
  · intro env last r hdpi hw hh
    rw [screen_capture_run_region env last r hdpi hw hh]
    split <;> rfl

/-- Witness for amended C4: a full-screen capture of a 1920×1080 screen
resizes with target (960, 540); `targetDownscaleSize 100 100 = (50, 50)`
never exceeds its input. -/
theorem downscale_target_amended_witness :
    (screen_capture witEnv none none).effects =
      [.screenshot, .resize 960 540, .encode] ∧
    ((targetDownscaleSize 100 100).1 : ℚ) ≤ 100 ∧
    ((targetDownscaleSize 100 100).2 : ℚ) ≤ 100 := by
  have h := downscale_target_amended
  refine ⟨?_, (h.1 100 100 (by norm_num) (by norm_num)).1,
    (h.1 100 100 (by norm_num) (by norm_num)).2⟩
  rw [(h.2.2.1 witEnv none).1]
  norm_num [screenCaptureResizeEffects, targetDownscaleSize, witEnv, round_eq]

/-- C5: the physical extraction rectangle of `window_capture` is the
logical bounds scaled (and rounded) by the density ratio exactly when that
ratio exceeds 1.5 on either axis, and the raw logical bounds otherwise;
a rectangle outside the screenshot makes the call fail with an error carrying
all six numbers, with no crop performed and the cache untouched. -/
theorem window_capture_extraction_rect_and_validation
    (env : Env) (store : MetaStore) (wid : Nat) (tw : WindowRecord) (x1 y1 x2 y2 : ℚ)
    (hwid : wid ≠ 0) (hfocus : env.focusOk = true)
    (hfind : env.windows.find? (fun w => w.id == wid) = some tw)
    (hbw : 0 < tw.bounds.width) (hbh : 0 < tw.bounds.height)
    (hprim : isOnPrimaryDisplay tw.bounds env.screenSize)
    (hrect : extractionRect tw.bounds env.shotSize env.screenSize = (x1, y1, x2, y2)) :
    ((env.shotSize.width / env.screenSize.width > 3 / 2 ∨
      env.shotSize.height / env.screenSize.height > 3 / 2) →
      (x1, y1, x2, y2) =
        ((round (tw.bounds.x * (env.shotSize.width / env.screenSize.width)) : ℚ),
         (round (tw.bounds.y * (env.shotSize.height / env.screenSize.height)) : ℚ),
         (round ((tw.bounds.x + tw.bounds.width) *
            (env.shotSize.width / env.screenSize.width)) : ℚ),
         (round ((tw.bounds.y + tw.bounds.height) *
            (env.shotSize.height / env.screenSize.height)) : ℚ))) ∧
    (¬ (env.shotSize.width / env.screenSize.width > 3 / 2 ∨
        env.shotSize.height / env.screenSize.height > 3 / 2) →
      (x1, y1, x2, y2) = (tw.bounds.x, tw.bounds.y,
        tw.bounds.x + tw.bounds.width, tw.bounds.y + tw.bounds.height)) ∧
    (0 < x2 - x1 → 0 < y2 - y1 →
      (x1 < 0 ∨ y1 < 0 ∨ x2 > env.shotSize.width ∨ y2 > env.shotSize.height) →
      (window_capture env store (some wid) none).outcome =
        .errBoundsExceed x1 y1 x2 y2 env.shotSize.width env.shotSize.height ∧
      hasCrop (window_capture env store (some wid) none).effects = false ∧
      (window_capture env store (some wid) none).store = store) := by
  refine ⟨?_, ?_, ?_⟩
  · intro hdpi
    unfold extractionRect at hrect
    rw [if_pos hdpi] at hrect
    exact hrect.symm
  · intro hdpi
    unfold extractionRect at hrect
    rw [if_neg hdpi] at hrect
    exact hrect.symm
  · intro hw hh hviol
    rw [window_capture_run_boundsExceed env store wid tw x1 y1 x2 y2 hwid hfocus hfind
      hbw hbh hprim hrect hw hh hviol]
    exact ⟨rfl, rfl, rfl⟩

/-- Witness for C5: a 200×200 window at (900, 900) of a 1000×1000 screen has
extraction rectangle (900, 900, 1100, 1100), which exceeds the screenshot;
the call fails with all six numbers and performs no crop. -/
theorem window_capture_extraction_rect_and_validation_witness :
    extractionRect (⟨900, 900, 200, 200⟩ : Bounds) hangEnv.shotSize hangEnv.screenSize =
      (900, 900, 1100, 1100) ∧
    (window_capture hangEnv emptyStore (some 2) none).outcome =
      .errBoundsExceed 900 900 1100 1100 1000 1000 ∧
    hasCrop (window_capture hangEnv emptyStore (some 2) none).effects = false := by
  have hrect : extractionRect (⟨900, 900, 200, 200⟩ : Bounds) hangEnv.shotSize
      hangEnv.screenSize = (900, 900, 1100, 1100) := by
    norm_num [extractionRect, hangEnv, Prod.ext_iff]
  have h := (window_capture_extraction_rect_and_validation hangEnv emptyStore 2
    ⟨2, "hang", ⟨900, 900, 200, 200⟩⟩ 900 900 1100 1100
    (by decide) rfl rfl (by norm_num) (by norm_num)
    (by norm_num [isOnPrimaryDisplay, hangEnv]) hrect).2.2
    (by norm_num) (by norm_num) (by norm_num [hangEnv])
  have h2 := h.1
  have h3 := h.2.1
  refine ⟨hrect, ?_, h3⟩
  rw [h2]
  norm_num [hangEnv]

/-- C6 counterexample: a 5000-wide window at (100, 100) on a 1920×1080
primary display is *not* fully within the primary bounds (100 + 5000 >
1920), yet `window_capture` does not reject it as a secondary-display
window: only the top-left corner is checked, so the capture proceeds to the
screenshot and fails later at the extraction-bounds validation instead. -/
theorem secondary_display_rejection_counterexample :
    (100 : ℚ) + 5000 > 1920 ∧
    (window_capture straddleEnv emptyStore (some 1) none).outcome =
      .errBoundsExceed 100 100 5100 200 1920 1080 ∧
    CapEffect.screenshot ∈ (window_capture straddleEnv emptyStore (some 1) none).effects ∧
    (window_capture straddleEnv emptyStore (some 1) none).outcome ≠
      .errSecondaryDisplay .secondaryLeft ∧
    (window_capture straddleEnv emptyStore (some 1) none).outcome ≠
      .errSecondaryDisplay .secondaryRight ∧
    (window_capture straddleEnv emptyStore (some 1) none).outcome ≠
      .errSecondaryDisplay .secondaryTop ∧
    (window_capture straddleEnv emptyStore (some 1) none).outcome ≠
      .errSecondaryDisplay .secondaryBottom := by
  have hrun := window_capture_run_boundsExceed straddleEnv emptyStore 1
    ⟨1, "wide", ⟨100, 100, 5000, 100⟩⟩ 100 100 5100 200
    (by decide) rfl rfl (by norm_num) (by norm_num)
    (by norm_num [isOnPrimaryDisplay, straddleEnv])
    (by norm_num [extractionRect, straddleEnv, Prod.ext_iff])
    (by norm_num) (by norm_num) (by norm_num [straddleEnv])
  rw [hrun]
  refine ⟨by norm_num, by norm_num [straddleEnv], by simp, by simp, by simp, by simp, by simp⟩

/-- C6 (amended): `window_capture` rejects a window exactly when its
*top-left corner* lies outside `[0, primaryWidth) × [0, primaryHeight)`,
before any screenshot/crop/encode, with an error naming one of the four
secondary locations; in particular a window with positive dimensions lying
entirely outside the primary rectangle has its corner outside and is
rejected. -/
theorem secondary_display_rejection_amended
    (env : Env) (store : MetaStore) (wid : Nat) (tw : WindowRecord)
    (hwid : wid ≠ 0) (hfocus : env.focusOk = true)
    (hfind : env.windows.find? (fun w => w.id == wid) = some tw)
    (hbw : 0 < tw.bounds.width) (hbh : 0 < tw.bounds.height) :
    (¬ isOnPrimaryDisplay tw.bounds env.screenSize →
      (window_capture env store (some wid) none).outcome =
        .errSecondaryDisplay (displayLocationOf tw.bounds env.screenSize) ∧
      displayLocationOf tw.bounds env.screenSize ≠ .secondaryUnknown ∧
      (window_capture env store (some wid) none).effects = [] ∧
      (window_capture env store (some wid) none).store = store) ∧
    ((tw.bounds.x + tw.bounds.width ≤ 0 ∨ tw.bounds.x ≥ env.screenSize.width ∨
      tw.bounds.y + tw.bounds.height ≤ 0 ∨ tw.bounds.y ≥ env.screenSize.height) →
      ¬ isOnPrimaryDisplay tw.bounds env.screenSize) := by
  constructor
  · intro hnp
    have hrun := window_capture_run_secondary env store wid tw hwid hfocus hfind hbw hbh hnp
    refine ⟨by rw [hrun], ?_, by rw [hrun], by rw [hrun]⟩
    intro hcontra
    unfold displayLocationOf at hcontra
    split_ifs at hcontra with h1 h2 h3 h4
    all_goals try simp at hcontra
    exact hnp ⟨le_of_not_lt h1, le_of_not_lt h3, lt_of_not_ge h2, lt_of_not_ge h4⟩
  · rintro (h | h | h | h) ⟨h0x, h0y, hxW, hyH⟩
    · linarith
    · linarith
    · linarith
    · linarith

/-- Witness for amended C6: a window at x = -500 is rejected as
`secondary-left` with no pipeline effect. -/
theorem secondary_display_rejection_amended_witness :
    ¬ isOnPrimaryDisplay (⟨-500, 10, 100, 100⟩ : Bounds) offLeftEnv.screenSize ∧
    (window_capture offLeftEnv emptyStore (some 3) none).outcome =
      .errSecondaryDisplay .secondaryLeft ∧
    (window_capture offLeftEnv emptyStore (some 3) none).effects = [] := by
  have hnp : ¬ isOnPrimaryDisplay (⟨-500, 10, 100, 100⟩ : Bounds) offLeftEnv.screenSize := by
    norm_num [isOnPrimaryDisplay, offLeftEnv]
  have h := (secondary_display_rejection_amended offLeftEnv emptyStore 3
    ⟨3, "side", ⟨-500, 10, 100, 100⟩⟩
    (by decide) rfl rfl (by norm_num) (by norm_num)).1 hnp
  refine ⟨hnp, ?_, h.2.2.1⟩
  rw [h.1]
  norm_num [displayLocationOf, offLeftEnv]

set_option maxHeartbeats 1000000 in
/-- C8: every record a capture writes into the metadata store carries
`aiImageSize` equal to the measured dimensions of the encoded image actually
returned (the dimensions of the success payload), never the pre-encode
target; this holds for the per-window records of `window_capture` and for
the `lastScreenCapture` record of `screen_capture`. -/
theorem capture_metadata_reflects_encoded_size :
    (∀ (env : Env) (store : MetaStore) (wid : Option Nat) (wt : Option String)
        (i : Nat) (m : CaptureMetadata),
      (window_capture env store wid wt).store i = some m →
      store i = some m ∨
        (m.aiImageSize = ⟨env.finalSize.width, env.finalSize.height⟩ ∧
          (window_capture env store wid wt).outcome =
            .ok m.aiImageSize.width m.aiImageSize.height)) ∧
    (∀ (env : Env) (last : Option ScreenCaptureMetadata) (region : Option Region)
        (meta : ScreenCaptureMetadata),
      (screen_capture env last region).lastScreenCapture = some meta →
      last = some meta ∨
        (meta.aiImageSize = env.finalSize ∧
          (screen_capture env last region).outcome =
            .ok meta.aiImageSize.width meta.aiImageSize.height)) := by
  constructor
  · intro env store wid wt i m
    simp only [window_capture]
    repeat' split
    all_goals intro h
    all_goals try exact Or.inl h
    all_goals rcases storePut_lookup h with h' | hm
    all_goals try exact Or.inl h'
    all_goals subst hm
    all_goals exact Or.inr ⟨rfl, rfl⟩
  · intro env last region meta
    simp only [screen_capture]
    repeat' split
    all_goals intro h
    all_goals try exact Or.inl h
    all_goals cases h
    all_goals exact Or.inr ⟨rfl, rfl⟩

/-- Witness for C8: capturing `witWin` (extraction 100×50, downscale target
(50, 25)) encodes to a measured 50×30 image; the stored record carries the
measured 50×30, not the target (50, 25). -/
theorem capture_metadata_reflects_encoded_size_witness :
    (window_capture witEnv emptyStore (some 1) none).store 1 =
      some ⟨1, ⟨100, 50⟩, ⟨50, 30⟩, 0⟩ ∧
    (emptyStore 1 = some ⟨1, ⟨100, 50⟩, ⟨50, 30⟩, 0⟩ ∨
      ((⟨1, ⟨100, 50⟩, ⟨50, 30⟩, (0 : ℚ)⟩ : CaptureMetadata).aiImageSize =
          ⟨witEnv.finalSize.width, witEnv.finalSize.height⟩ ∧
        (window_capture witEnv emptyStore (some 1) none).outcome = .ok 50 30)) ∧
    targetDownscaleSize 100 50 = (50, 25) := by
  have hrun := window_capture_run_primary witEnv emptyStore 1 witWin 10 20 110 70
    (by decide) rfl rfl (by norm_num [witWin]) (by norm_num [witWin])
    (by norm_num [isOnPrimaryDisplay, witEnv, witWin])
    (by norm_num [extractionRect, witEnv, witWin, Prod.ext_iff])
    (by norm_num) (by norm_num) (by norm_num [witEnv])
  have hstore : (window_capture witEnv emptyStore (some 1) none).store 1 =
      some ⟨1, ⟨100, 50⟩, ⟨50, 30⟩, 0⟩ := by
    rw [hrun, if_neg (by norm_num [witEnv] : ¬ witEnv.sizeKB > 300)]
    norm_num [storePut, witWin, witEnv]
  refine ⟨hstore, ?_, by norm_num [targetDownscaleSize, round_eq, Prod.ext_iff]⟩
  exact (capture_metadata_reflects_encoded_size).1 witEnv emptyStore (some 1) none 1
    ⟨1, ⟨100, 50⟩, ⟨50, 30⟩, 0⟩ hstore

set_option maxHeartbeats 1000000 in
/-- C9: when the encoded output exceeds 300 KB, both capture operations
fail with an error carrying the measured size and the cap, never return the
oversized image as a success payload, and leave the metadata state
untouched. -/
theorem capture_size_cap_enforced :
    (∀ (env : Env) (store : MetaStore) (wid : Option Nat) (wt : Option String),
      env.sizeKB > 300 →
      (∀ aw ah, (window_capture env store wid wt).outcome ≠ .ok aw ah) ∧
      (window_capture env store wid wt).store = store ∧
      (hasEncode (window_capture env store wid wt).effects = true →
        (window_capture env store wid wt).outcome = .errTooLarge env.sizeKB 300)) ∧
    (∀ (env : Env) (last : Option ScreenCaptureMetadata) (region : Option Region),
      env.sizeKB > 300 →
      (∀ aw ah, (screen_capture env last region).outcome ≠ .ok aw ah) ∧
      (screen_capture env last region).lastScreenCapture = last ∧
      (hasEncode (screen_capture env last region).effects = true →
        (screen_capture env last region).outcome = .errTooLarge env.sizeKB 300)) := by
  constructor
  · intro env store wid wt hsz
    simp only [window_capture]
    repeat' split
    all_goals refine ⟨fun aw ah => by simp, rfl, fun henc => ?_⟩
    all_goals first
      | rfl
      | simp [hasEncode] at henc
  · intro env last region hsz
    simp only [screen_capture]
    repeat' split
    all_goals try contradiction
    all_goals refine ⟨fun aw ah => by simp, rfl, fun henc => ?_⟩
    all_goals first
      | rfl
      | simp [hasEncode] at henc

/-- Witness for C9: a 400 KB encode makes `window_capture` fail with the
size-and-cap error and never succeed. -/
theorem capture_size_cap_enforced_witness :
    bigOutputEnv.sizeKB > 300 ∧
    (window_capture bigOutputEnv emptyStore (some 1) none).outcome =
      .errTooLarge 400 300 ∧
    (window_capture bigOutputEnv emptyStore (some 1) none).outcome ≠ .ok 50 30 := by
  have hsz : bigOutputEnv.sizeKB > 300 := by norm_num [bigOutputEnv]
  have h := (capture_size_cap_enforced).1 bigOutputEnv emptyStore (some 1) none hsz
  have hrun := window_capture_run_primary bigOutputEnv emptyStore 1 witWin 10 20 110 70
    (by decide) rfl rfl (by norm_num [witWin]) (by norm_num [witWin])
    (by norm_num [isOnPrimaryDisplay, bigOutputEnv, witWin])
    (by norm_num [extractionRect, bigOutputEnv, witWin, Prod.ext_iff])
    (by norm_num) (by norm_num) (by norm_num [bigOutputEnv])
  have henc : hasEncode (window_capture bigOutputEnv emptyStore (some 1) none).effects =
      true := by
    rw [hrun, if_pos hsz]
    simp [windowCaptureEffects, hasEncode]
  refine ⟨hsz, ?_, h.1 50 30⟩
  have := h.2.2 henc
  rw [this]
  norm_num [bigOutputEnv]

/-- With `continueOnError = false`, a run whose earlier steps all succeed
aborts at the first failing step, returning only the error of that step and none
of the accumulated results. -/
theorem runSteps_abort_at_first_failure (bad : ActionStep) (rest : List ActionStep) :
    ∀ (pre : List ActionStep) (i : Nat) (results : List StepRecord) (errors : List String),
    (∀ s ∈ pre, stepFails s = false) → stepFails bad = true →
    runSteps false (pre ++ bad :: rest) i results errors false =
      .abort ((stepErrorOf (i + pre.length) bad).getD "") := by
  intro pre
  induction pre with
  | nil =>
    intro i results errors _ hbad
    simp only [List.nil_append, List.length_nil, Nat.add_zero]
    unfold runSteps stepErrorOf
    by_cases h1 : jsFalsyStr bad.type = true
    · simp [h1]
    · by_cases h2 : bad.type.getD "" ∈ knownActionTypes
      · cases hres : bad.result with
        | ok =>
          exfalso
          unfold stepFails at hbad
          simp [h1, h2, hres] at hbad
        | failed msg =>
          simp [h1, h2, hres]
      · simp [h1, h2]
  | cons head tail ih =>
    intro i results errors hpre hbad
    obtain ⟨htype, hresult⟩ := head
    have hh : stepFails ⟨htype, hresult⟩ = false := hpre _ (List.mem_cons_self _ _)
    have htail : ∀ s ∈ tail, stepFails s = false :=
      fun s hs => hpre s (List.mem_cons_of_mem _ hs)
    unfold stepFails at hh
    rw [Bool.or_eq_false_iff, Bool.or_eq_false_iff] at hh
    obtain ⟨⟨h1, h2⟩, h3⟩ := hh
    revert h3
    cases hresult with
    | failed msg =>
      intro h3
      simp at h3
    | ok =>
      intro h3
      have h1' : jsFalsyStr htype = false := h1
      have h2' : htype.getD "" ∈ knownActionTypes := by
        simpa using h2
      have hidx : i + ((⟨htype, .ok⟩ : ActionStep) :: tail).length = i + 1 + tail.length := by
        rw [List.length_cons]
        omega
      rw [hidx]
      simp only [List.cons_append]
      unfold runSteps
      rw [if_neg (by simp [h1']), if_pos h2']
      exact ih (i + 1) _ _ htail hbad

/-- With `continueOnError = true`, a run visits every step, records one
entry per step in order, collects one aggregate error per failing step, and
succeeds only if no step failed and no earlier error was recorded. -/
theorem runSteps_continue_spec (steps : List ActionStep) :
    ∀ (i : Nat) (results : List StepRecord) (errors : List String) (hasErrors : Bool),
    runSteps true steps i results errors hasErrors =
      .done (!(hasErrors || steps.any stepFails))
        (results.reverse ++ expectedRecords i steps)
        (errors.reverse ++ expectedErrors i steps) := by
  induction steps with
  | nil =>
    intro i results errors hasErrors
    unfold runSteps expectedRecords expectedErrors
    simp
  | cons head tail ih =>
    intro i results errors hasErrors
    obtain ⟨htype, hresult⟩ := head
    by_cases h1 : jsFalsyStr htype = true
    · simp [runSteps, h1, ih (i + 1), stepFails, stepRecordOf, stepErrorOf,
        expectedRecords, expectedErrors, List.reverse_cons, List.append_assoc]
    · by_cases h2 : htype.getD "" ∈ knownActionTypes
      · cases hresult with
        | ok =>
          simp [runSteps, h1, h2, ih (i + 1), stepFails, stepRecordOf, stepErrorOf,
            expectedRecords, expectedErrors, List.reverse_cons, List.append_assoc]
        | failed msg =>
          simp [runSteps, h1, h2, ih (i + 1), stepFails, stepRecordOf, stepErrorOf,
            expectedRecords, expectedErrors, List.reverse_cons, List.append_assoc]
      · cases hresult with
        | ok =>
          simp [runSteps, h1, h2, ih (i + 1), stepFails, stepRecordOf, stepErrorOf,
            expectedRecords, expectedErrors, List.reverse_cons, List.append_assoc]
        | failed msg =>
          simp [runSteps, h1, h2, ih (i + 1), stepFails, stepRecordOf, stepErrorOf,
            expectedRecords, expectedErrors, List.reverse_cons, List.append_assoc]

/-- C7 counterexample: three known steps where step 1 (0-based) fails,
with `continueOnError = false`: the batch returns only the aggregate error —
the `results` accumulated before the failure are *not* part of the return
value (server.js line 1487 returns `{success:false, error}` with no
`results` field). -/
theorem batch_abort_counterexample :
    multiple_desktop_actions [stepOk, stepBad, stepOk] false =
      .abort "Action 1 (mouse_move): boom" := by
  rfl

/-- C7 (amended): steps run strictly sequentially.  With
`continueOnError = false` the batch aborts at the first failing step
(including a missing or unknown type) and returns a single aggregate error
and *no* result list; with `continueOnError = true` every step is attempted,
the result list has exactly one entry per step with failing steps marked
failed in-line, the aggregate per-step error list is reported, and overall
success is false whenever some step failed. -/
theorem batch_semantics_amended :
    (∀ (pre : List ActionStep) (bad : ActionStep) (rest : List ActionStep),
      (∀ s ∈ pre, stepFails s = false) → stepFails bad = true →
      multiple_desktop_actions (pre ++ bad :: rest) false =
        .abort ((stepErrorOf pre.length bad).getD "")) ∧
    (∀ steps : List ActionStep,
      multiple_desktop_actions steps true =
        .done (!steps.any stepFails) (expectedRecords 0 steps)
          (expectedErrors 0 steps)) := by
  constructor
  · intro pre bad rest hpre hbad
    have h := runSteps_abort_at_first_failure bad rest pre 0 [] [] hpre hbad
    simpa using h
  · intro steps
    have h := runSteps_continue_spec steps 0 [] [] false
    simpa using h

/-- Witness for amended C7: `[ok, fail "boom", ok]` aborts with the step-1
error and no results when `continueOnError = false`, and yields one record
per step, overall failure and one aggregate error when `true`. -/
theorem batch_semantics_amended_witness :
    multiple_desktop_actions ([stepOk] ++ stepBad :: [stepOk]) false =
      .abort ((stepErrorOf 1 stepBad).getD "") ∧
    multiple_desktop_actions [stepOk, stepBad, stepOk] true =
      .done false
        [⟨0, "mouse_move", true, none⟩, ⟨1, "mouse_move", false, some "boom"⟩,
         ⟨2, "mouse_move", true, none⟩]
        ["Action 1 (mouse_move): boom"] := by
  constructor
  · exact (batch_semantics_amended).1 [stepOk] stepBad [stepOk]
      (by decide) (by decide)
  · rw [(batch_semantics_amended).2 [stepOk, stepBad, stepOk]]
    rfl

end McpDesktopPro
